import Mathlib

/-!
Shallow embedding of the wayland (portal) backend of the `global-hotkey`
crate: `src/platform_impl/linux/wayland/mod.rs`,
`src/platform_impl/linux/wayland/runtime.rs` and
`src/platform_impl/linux/mod.rs`.

Pure functions (the freedesktop trigger translation tables) are translated
directly.  Stateful and effectful code is embedded with explicit state
passing: the random number generator becomes an explicit candidate stream,
the portal (an external D-Bus service) becomes an oracle parameter giving
the outcome of each bind call, the per-call one-shot reply channel becomes
an `Option` holding the message received (`none` when `recv` fails because
the dispatcher thread is gone and the sender was dropped), and a
computation that can fail to return normally (the `todo!()` stub, or an
`await` that never completes under `block_on`) returns an `Outcome` that
distinguishes a normal value from a panic and from divergence.
-/

namespace GlobalHotkey

/-- The `keyboard_types::Code` key-code enumeration (external crate),
restricted to the constructors matched by `keycode_to_freedesktop_spec`
plus representative constructors that fall into the `_ => return None`
arm (`Fn`, `FnLock`, `F13`, `F14`, `ContextMenu`, `Power`, `NumpadEnter`,
`IntlBackslash`, `AltLeft`, `AltRight`, `ControlLeft`, `ControlRight`,
`ShiftLeft`, `ShiftRight`, `MetaLeft`, `MetaRight`, `Pause`, `Help`). -/
inductive Code where
  | KeyA | KeyB | KeyC | KeyD | KeyE | KeyF | KeyG | KeyH | KeyI | KeyJ
  | KeyK | KeyL | KeyM | KeyN | KeyO | KeyP | KeyQ | KeyR | KeyS | KeyT
  | KeyU | KeyV | KeyW | KeyX | KeyY | KeyZ
  | Backslash | BracketLeft | BracketRight | Backquote | Comma
  | Digit0 | Digit1 | Digit2 | Digit3 | Digit4
  | Digit5 | Digit6 | Digit7 | Digit8 | Digit9
  | Equal | Minus | Period | Quote | Semicolon | Slash
  | Backspace | CapsLock | Enter | Space | Tab
  | Delete | End | Home | Insert | PageDown | PageUp
  | ArrowDown | ArrowLeft | ArrowRight | ArrowUp
  | Numpad0 | Numpad1 | Numpad2 | Numpad3 | Numpad4
  | Numpad5 | Numpad6 | Numpad7 | Numpad8 | Numpad9
  | NumpadAdd | NumpadDecimal | NumpadDivide | NumpadMultiply | NumpadSubtract
  | Escape | PrintScreen | ScrollLock | NumLock
  | F1 | F2 | F3 | F4 | F5 | F6 | F7 | F8 | F9 | F10 | F11 | F12
  | AudioVolumeDown | AudioVolumeMute | AudioVolumeUp
  | MediaPlay | MediaPause | MediaStop | MediaTrackNext | MediaTrackPrevious
  | Fn | FnLock | F13 | F14 | ContextMenu | Power | NumpadEnter
  | IntlBackslash | AltLeft | AltRight | ControlLeft | ControlRight
  | ShiftLeft | ShiftRight | MetaLeft | MetaRight | Pause | Help
deriving DecidableEq, Repr

/-- `impl Display for keyboard_types::Code` writes the variant name; used by
the `format!` building the `FailedToRegister` message in `register_hotkey`. -/
def Code.displayString : Code → String
  | .KeyA => "KeyA" | .KeyB => "KeyB" | .KeyC => "KeyC" | .KeyD => "KeyD"
  | .KeyE => "KeyE" | .KeyF => "KeyF" | .KeyG => "KeyG" | .KeyH => "KeyH"
  | .KeyI => "KeyI" | .KeyJ => "KeyJ" | .KeyK => "KeyK" | .KeyL => "KeyL"
  | .KeyM => "KeyM" | .KeyN => "KeyN" | .KeyO => "KeyO" | .KeyP => "KeyP"
  | .KeyQ => "KeyQ" | .KeyR => "KeyR" | .KeyS => "KeyS" | .KeyT => "KeyT"
  | .KeyU => "KeyU" | .KeyV => "KeyV" | .KeyW => "KeyW" | .KeyX => "KeyX"
  | .KeyY => "KeyY" | .KeyZ => "KeyZ"
  | .Backslash => "Backslash" | .BracketLeft => "BracketLeft"
  | .BracketRight => "BracketRight" | .Backquote => "Backquote"
  | .Comma => "Comma"
  | .Digit0 => "Digit0" | .Digit1 => "Digit1" | .Digit2 => "Digit2"
  | .Digit3 => "Digit3" | .Digit4 => "Digit4" | .Digit5 => "Digit5"
  | .Digit6 => "Digit6" | .Digit7 => "Digit7" | .Digit8 => "Digit8"
  | .Digit9 => "Digit9"
  | .Equal => "Equal" | .Minus => "Minus" | .Period => "Period"
  | .Quote => "Quote" | .Semicolon => "Semicolon" | .Slash => "Slash"
  | .Backspace => "Backspace" | .CapsLock => "CapsLock" | .Enter => "Enter"
  | .Space => "Space" | .Tab => "Tab"
  | .Delete => "Delete" | .End => "End" | .Home => "Home"
  | .Insert => "Insert" | .PageDown => "PageDown" | .PageUp => "PageUp"
  | .ArrowDown => "ArrowDown" | .ArrowLeft => "ArrowLeft"
  | .ArrowRight => "ArrowRight" | .ArrowUp => "ArrowUp"
  | .Numpad0 => "Numpad0" | .Numpad1 => "Numpad1" | .Numpad2 => "Numpad2"
  | .Numpad3 => "Numpad3" | .Numpad4 => "Numpad4" | .Numpad5 => "Numpad5"
  | .Numpad6 => "Numpad6" | .Numpad7 => "Numpad7" | .Numpad8 => "Numpad8"
  | .Numpad9 => "Numpad9"
  | .NumpadAdd => "NumpadAdd" | .NumpadDecimal => "NumpadDecimal"
  | .NumpadDivide => "NumpadDivide" | .NumpadMultiply => "NumpadMultiply"
  | .NumpadSubtract => "NumpadSubtract"
  | .Escape => "Escape" | .PrintScreen => "PrintScreen"
  | .ScrollLock => "ScrollLock" | .NumLock => "NumLock"
  | .F1 => "F1" | .F2 => "F2" | .F3 => "F3" | .F4 => "F4" | .F5 => "F5"
  | .F6 => "F6" | .F7 => "F7" | .F8 => "F8" | .F9 => "F9" | .F10 => "F10"
  | .F11 => "F11" | .F12 => "F12"
  | .AudioVolumeDown => "AudioVolumeDown" | .AudioVolumeMute => "AudioVolumeMute"
  | .AudioVolumeUp => "AudioVolumeUp"
  | .MediaPlay => "MediaPlay" | .MediaPause => "MediaPause"
  | .MediaStop => "MediaStop" | .MediaTrackNext => "MediaTrackNext"
  | .MediaTrackPrevious => "MediaTrackPrevious"
  | .Fn => "Fn" | .FnLock => "FnLock" | .F13 => "F13" | .F14 => "F14"
  | .ContextMenu => "ContextMenu" | .Power => "Power"
  | .NumpadEnter => "NumpadEnter" | .IntlBackslash => "IntlBackslash"
  | .AltLeft => "AltLeft" | .AltRight => "AltRight"
  | .ControlLeft => "ControlLeft" | .ControlRight => "ControlRight"
  | .ShiftLeft => "ShiftLeft" | .ShiftRight => "ShiftRight"
  | .MetaLeft => "MetaLeft" | .MetaRight => "MetaRight"
  | .Pause => "Pause" | .Help => "Help"

/-- The `keyboard_types::Modifiers` bitset (external crate), restricted to
the flags read by `modifiers_to_freedesktop_spec`: SHIFT, CONTROL, ALT,
SUPER and META.  `contains` of a single flag is a field read, and
`intersects(SUPER | META)` is the disjunction of the two fields. -/
structure Modifiers where
  shift : Bool
  control : Bool
  alt : Bool
  superKey : Bool
  meta : Bool
deriving DecidableEq, Repr

/-- The `HotKey` descriptor: modifier set plus key code (`hotkey.mods` and
`hotkey.key` are the only fields the wayland backend reads). -/
structure HotKey where
  mods : Modifiers
  key : Code
deriving DecidableEq, Repr

/-- The `crate::Error` variants constructed by the wayland backend. -/
inductive Error where
  | FailedToRegister (msg : String)
  | FailedToUnRegister (hk : HotKey)
  | OsError (msg : String)
deriving DecidableEq, Repr

/-- `keycode_to_freedesktop_spec` from `wayland/mod.rs`: partial map from a
key code to its freedesktop shortcuts-spec symbol; `_ => return None`. -/
def keycode_to_freedesktop_spec (key : Code) : Option String :=
  match key with
  | .KeyA => some "A"
  | .KeyB => some "B"
  | .KeyC => some "C"
  | .KeyD => some "D"
  | .KeyE => some "E"
  | .KeyF => some "F"
  | .KeyG => some "G"
  | .KeyH => some "H"
  | .KeyI => some "I"
  | .KeyJ => some "J"
  | .KeyK => some "K"
  | .KeyL => some "L"
  | .KeyM => some "M"
  | .KeyN => some "N"
  | .KeyO => some "O"
  | .KeyP => some "P"
  | .KeyQ => some "Q"
  | .KeyR => some "R"
  | .KeyS => some "S"
  | .KeyT => some "T"
  | .KeyU => some "U"
  | .KeyV => some "V"
  | .KeyW => some "W"
  | .KeyX => some "X"
  | .KeyY => some "Y"
  | .KeyZ => some "Z"
  | .Backslash => some "backslash"
  | .BracketLeft => some "bracketleft"
  | .BracketRight => some "bracketright"
  | .Backquote => some "quoteleft"
  | .Comma => some "comma"
  | .Digit0 => some "0"
  | .Digit1 => some "1"
  | .Digit2 => some "2"
  | .Digit3 => some "3"
  | .Digit4 => some "4"
  | .Digit5 => some "5"
  | .Digit6 => some "6"
  | .Digit7 => some "7"
  | .Digit8 => some "8"
  | .Digit9 => some "9"
  | .Equal => some "equal"
  | .Minus => some "minus"
  | .Period => some "period"
  | .Quote => some "leftsinglequotemark"
  | .Semicolon => some "semicolon"
  | .Slash => some "slash"
  | .Backspace => some "BackSpace"
  | .CapsLock => some "Caps_Lock"
  | .Enter => some "Return"
  | .Space => some "space"
  | .Tab => some "Tab"
  | .Delete => some "Delete"
  | .End => some "End"
  | .Home => some "Home"
  | .Insert => some "Insert"
  | .PageDown => some "Page_Down"
  | .PageUp => some "Page_Up"
  | .ArrowDown => some "Down"
  | .ArrowLeft => some "Left"
  | .ArrowRight => some "Right"
  | .ArrowUp => some "Up"
  | .Numpad0 => some "KP_0"
  | .Numpad1 => some "KP_1"
  | .Numpad2 => some "KP_2"
  | .Numpad3 => some "KP_3"
  | .Numpad4 => some "KP_4"
  | .Numpad5 => some "KP_5"
  | .Numpad6 => some "KP_6"
  | .Numpad7 => some "KP_7"
  | .Numpad8 => some "KP_8"
  | .Numpad9 => some "KP_9"
  | .NumpadAdd => some "KP_Add"
  | .NumpadDecimal => some "KP_Decimal"
  | .NumpadDivide => some "KP_Divide"
  | .NumpadMultiply => some "KP_Multiply"
  | .NumpadSubtract => some "KP_Subtract"
  | .Escape => some "Escape"
  | .PrintScreen => some "Print"
  | .ScrollLock => some "Scroll_Lock"
  | .NumLock => some "F1"
  | .F1 => some "F1"
  | .F2 => some "F2"
  | .F3 => some "F3"
  | .F4 => some "F4"
  | .F5 => some "F5"
  | .F6 => some "F6"
  | .F7 => some "F7"
  | .F8 => some "F8"
  | .F9 => some "F9"
  | .F10 => some "F10"
  | .F11 => some "F11"
  | .F12 => some "F12"
  | .AudioVolumeDown => some "XF86AudioLowerVolume"
  | .AudioVolumeMute => some "XF86XK_AudioMute"
  | .AudioVolumeUp => some "XF86XK_AudioRaiseVolume"
  | .MediaPlay => some "XF86XK_AudioPlay"
  | .MediaPause => some "XF86XK_AudioPause"
  | .MediaStop => some "XF86XK_AudioStop"
  | .MediaTrackNext => some "XF86XK_AudioNext"
  | .MediaTrackPrevious => some "XF86XK_AudioPrev"
  | _ => none

/-- `add_keys` from `wayland/mod.rs`: append a modifier name to the
accumulator, with `+` as separator once the accumulator is non-empty. -/
def add_keys (current : String) (add : String) : String :=
  if current.isEmpty then add else current ++ "+" ++ add

/-- `modifiers_to_freedesktop_spec` from `wayland/mod.rs`: emit SHIFT, then
LOGO (for SUPER or META), then ALT, then CTRL, joined by `+`. -/
def modifiers_to_freedesktop_spec (modifiers : Modifiers) : String :=
  let xdg_mods := ""
  let xdg_mods := if modifiers.shift then add_keys xdg_mods "SHIFT" else xdg_mods
  let xdg_mods :=
    if modifiers.superKey || modifiers.meta then add_keys xdg_mods "LOGO" else xdg_mods
  let xdg_mods := if modifiers.alt then add_keys xdg_mods "ALT" else xdg_mods
  let xdg_mods := if modifiers.control then add_keys xdg_mods "CTRL" else xdg_mods
  xdg_mods

/-- The trigger string `format!("{}+{}", modifiers, key)` built by
`register_hotkey`/`unregister_hotkey` when the key code has a freedesktop
mapping, as a partial function of the hotkey. -/
def hotkeyTrigger (hk : HotKey) : Option String :=
  match keycode_to_freedesktop_spec hk.key with
  | some key => some (modifiers_to_freedesktop_spec hk.mods ++ "+" ++ key)
  | none => none

/-- The result of running a piece of Rust code: a normal return value, a
panic (`todo!()`, `expect`), or divergence (a loop or `block_on` of a
future that never completes, so control never comes back). -/
inductive Outcome (α : Type) where
  | value (a : α)
  | panics
  | diverges
deriving DecidableEq, Repr

/-- The identifier-allocation loop at the top of `AsyncXdgs::register`:
draw `random::<u32>()` until the draw is absent from `hotkeys` (the Rust
condition is literally `hotkeys.is_empty() || !hotkeys.contains(&id)`).
The infinite entropy source is made explicit as the list `cands` of
successive draws; exhausting it without finding a fresh value means the
loop has not terminated within the modelled entropy, returned as `none`. -/
def allocate_id (cands : List Nat) (hotkeys : List Nat) : Option Nat :=
  match cands with
  | [] => none
  | id :: rest =>
    if hotkeys.isEmpty || !(hotkeys.contains id) then some id
    else allocate_id rest hotkeys

/-- `AsyncXdgs::register` from `runtime.rs`: allocate a fresh id, submit
the bind to the portal (`bind_shortcuts(...).await?.response()?`, outcome
given by the oracle `bindResult`; on error the `?` returns before the
push), then `hotkeys.push(id)`.  Returns the ashpd-level result together
with the updated active identifier list. -/
def AsyncXdgs.register (bindResult : Except String Unit) (cands : List Nat)
    (_hotkey : String) (hotkeys : List Nat) :
    Outcome (Except String Unit × List Nat) :=
  match allocate_id cands hotkeys with
  | none => Outcome.diverges
  | some id =>
    match bindResult with
    | Except.error e => Outcome.value (Except.error e, hotkeys)
    | Except.ok _ => Outcome.value (Except.ok (), hotkeys ++ [id])

/-- `AsyncXdgs::unregister` from `runtime.rs`: the body is `todo!()`, which
panics unconditionally. -/
def AsyncXdgs.unregister (_hotkey : String) (_hotkeys : List Nat) :
    Outcome (Except String Unit × List Nat) :=
  Outcome.panics

/-- The portal's activation/deactivation signal stream
(`receive_activated()` / `receive_deactivated()` in ashpd): the queue of
already-pending signal payloads (shortcut ids) plus whether the stream is
still live (the session not closed). -/
structure SignalStream where
  pending : List Nat
  live : Bool
deriving DecidableEq, Repr

/-- `StreamExt::next().await` on a signal stream: yields the next pending
item if one is queued; on an empty but live stream the future stays
pending, so under `block_on` the call never returns (divergence); on a
terminated stream it returns `None`. -/
def streamNext (s : SignalStream) : Outcome (Option Nat × SignalStream) :=
  match s.pending with
  | e :: rest => Outcome.value (some e, SignalStream.mk rest s.live)
  | [] => if s.live then Outcome.diverges else Outcome.value (none, s)

/-- `crate::HotKeyState`. -/
inductive HotKeyState where
  | Pressed
  | Released
deriving DecidableEq, Repr

/-- `crate::GlobalHotKeyEvent`, as republished through the process-wide
event sink by `GlobalHotKeyEvent::send`. -/
structure GlobalHotKeyEvent where
  id : Nat
  state : HotKeyState
deriving DecidableEq, Repr

/-- `AsyncXdgs::activated` from `runtime.rs`: subscribe
(`receive_activated().await`, outcome given by `sub`); on success run
`while let Some(x) = stream.next().await`, republishing the event and
`break`-ing after the first one; an ended stream exits the loop with no
event.  The list of events sent through the global sink is returned
explicitly. -/
def AsyncXdgs.activated (sub : Except String SignalStream) :
    Outcome (Except String Unit × List GlobalHotKeyEvent) :=
  match sub with
  | Except.error err => Outcome.value (Except.error err, [])
  | Except.ok s =>
    match streamNext s with
    | Outcome.panics => Outcome.panics
    | Outcome.diverges => Outcome.diverges
    | Outcome.value (none, _) => Outcome.value (Except.ok (), [])
    | Outcome.value (some id, _) =>
      Outcome.value (Except.ok (), [GlobalHotKeyEvent.mk id HotKeyState.Pressed])

/-- `AsyncXdgs::deactivated` from `runtime.rs`: same shape as `activated`,
republishing a `Released` event. -/
def AsyncXdgs.deactivated (sub : Except String SignalStream) :
    Outcome (Except String Unit × List GlobalHotKeyEvent) :=
  match sub with
  | Except.error err => Outcome.value (Except.error err, [])
  | Except.ok s =>
    match streamNext s with
    | Outcome.panics => Outcome.panics
    | Outcome.diverges => Outcome.diverges
    | Outcome.value (none, _) => Outcome.value (Except.ok (), [])
    | Outcome.value (some id, _) =>
      Outcome.value (Except.ok (), [GlobalHotKeyEvent.mk id HotKeyState.Released])

/-- `Xdgs::register` from `runtime.rs`: `block_on` the asynchronous
register; map an ashpd error to `Error::FailedToRegister(err.to_string())`. -/
def Xdgs.register (bindResult : Except String Unit) (cands : List Nat)
    (hotkey : String) (hotkeys : List Nat) :
    Outcome (Except Error Unit × List Nat) :=
  match AsyncXdgs.register bindResult cands hotkey hotkeys with
  | Outcome.panics => Outcome.panics
  | Outcome.diverges => Outcome.diverges
  | Outcome.value (Except.error err, hks) =>
    Outcome.value (Except.error (Error.FailedToRegister err), hks)
  | Outcome.value (Except.ok _, hks) => Outcome.value (Except.ok (), hks)

/-- `Xdgs::unregister` from `runtime.rs`: `block_on` the asynchronous
unregister; an error becomes `Error::FailedToUnRegister(hotkey)`.  Because
`AsyncXdgs::unregister` panics before producing any result, neither branch
after `block_on` is ever reached. -/
def Xdgs.unregister (hotkey_str : String) (hotkey : HotKey) (hotkeys : List Nat) :
    Outcome (Except Error Unit × List Nat) :=
  match AsyncXdgs.unregister hotkey_str hotkeys with
  | Outcome.panics => Outcome.panics
  | Outcome.diverges => Outcome.diverges
  | Outcome.value (Except.error _, hks) =>
    Outcome.value (Except.error (Error.FailedToUnRegister hotkey), hks)
  | Outcome.value (Except.ok _, hks) => Outcome.value (Except.ok (), hks)

/-- `Xdgs::activated` from `runtime.rs`: `block_on` the asynchronous poll
and discard its `Result`; only the republished events remain observable. -/
def Xdgs.activated (sub : Except String SignalStream) :
    Outcome (List GlobalHotKeyEvent) :=
  match AsyncXdgs.activated sub with
  | Outcome.panics => Outcome.panics
  | Outcome.diverges => Outcome.diverges
  | Outcome.value (_, evs) => Outcome.value evs

/-- `Xdgs::deactivated` from `runtime.rs`: as `Xdgs.activated`. -/
def Xdgs.deactivated (sub : Except String SignalStream) :
    Outcome (List GlobalHotKeyEvent) :=
  match AsyncXdgs.deactivated sub with
  | Outcome.panics => Outcome.panics
  | Outcome.diverges => Outcome.diverges
  | Outcome.value (_, evs) => Outcome.value evs

/-- `register_hotkey` from `wayland/mod.rs`: translate the hotkey; if the
key code has a freedesktop symbol, bind `format!("{}+{}", modifiers, key)`
through the session, otherwise return `Error::FailedToRegister` with the
unknown-scancode message and leave the active identifier list unchanged. -/
def register_hotkey (bindResult : Except String Unit) (cands : List Nat)
    (hotkeys : List Nat) (hotkey : HotKey) :
    Outcome (Except Error Unit × List Nat) :=
  let modifiers := modifiers_to_freedesktop_spec hotkey.mods
  match keycode_to_freedesktop_spec hotkey.key with
  | some key => Xdgs.register bindResult cands (modifiers ++ "+" ++ key) hotkeys
  | none =>
    Outcome.value
      (Except.error (Error.FailedToRegister
        ("Unable to register accelerator (unknown scancode for this key: "
          ++ Code.displayString hotkey.key ++ ").")), hotkeys)

/-- `unregister_hotkey` from `wayland/mod.rs`: translate the hotkey; if the
key code has a freedesktop symbol, call the session's unregister (which
panics in `todo!()`), otherwise return `Error::FailedToUnRegister`. -/
def unregister_hotkey (hotkeys : List Nat) (hotkey : HotKey) :
    Outcome (Except Error Unit × List Nat) :=
  let modifiers := modifiers_to_freedesktop_spec hotkey.mods
  match keycode_to_freedesktop_spec hotkey.key with
  | some key => Xdgs.unregister (modifiers ++ "+" ++ key) hotkey hotkeys
  | none =>
    Outcome.value (Except.error (Error.FailedToUnRegister hotkey), hotkeys)

/-- The `ThreadMessage` command enum from `wayland/mod.rs`.  The one-shot
reply `Sender` carried by each command is modelled by the reply lists the
dispatcher functions return. -/
inductive ThreadMessage where
  | RegisterHotKey (hk : HotKey)
  | RegisterHotKeys (hks : List HotKey)
  | UnRegisterHotKey (hk : HotKey)
  | UnRegisterHotKeys (hks : List HotKey)
  | DropThread
deriving DecidableEq, Repr

/-- The `RegisterHotKeys` arm of `events_processor`: for each hotkey in
order, run `register_hotkey`; on `Err(e)` do `tx.send(Err(e))`; after the
loop do `tx.send(Ok(()))`.  Returns the ordered list of messages sent on
the reply channel together with the final active identifier list.  The
per-element portal outcomes and candidate streams are the heads of
`binds`/`cands` (defaulting to a successful bind and an empty entropy
stream once the oracle lists are exhausted). -/
def batchRegister (binds : List (Except String Unit)) (cands : List (List Nat)) :
    List HotKey → List Nat → Outcome (List (Except Error Unit) × List Nat)
  | [], hotkeys => Outcome.value ([Except.ok ()], hotkeys)
  | hk :: rest, hotkeys =>
    match register_hotkey (binds.headD (Except.ok ())) (cands.headD []) hotkeys hk with
    | Outcome.panics => Outcome.panics
    | Outcome.diverges => Outcome.diverges
    | Outcome.value (Except.error e, h2) =>
      match batchRegister binds.tail cands.tail rest h2 with
      | Outcome.panics => Outcome.panics
      | Outcome.diverges => Outcome.diverges
      | Outcome.value (sends, h3) => Outcome.value (Except.error e :: sends, h3)
    | Outcome.value (Except.ok _, h2) => batchRegister binds.tail cands.tail rest h2

/-- The per-element outcomes of the same traversal `batchRegister`
performs: every element's individual `register_hotkey` result in order
(not only the failing ones), threading the same state.  Used to state
what the batch arm's reply discards. -/
def runAllRegister (binds : List (Except String Unit)) (cands : List (List Nat)) :
    List HotKey → List Nat → Outcome (List (Except Error Unit) × List Nat)
  | [], hotkeys => Outcome.value ([], hotkeys)
  | hk :: rest, hotkeys =>
    match register_hotkey (binds.headD (Except.ok ())) (cands.headD []) hotkeys hk with
    | Outcome.panics => Outcome.panics
    | Outcome.diverges => Outcome.diverges
    | Outcome.value (r, h2) =>
      match runAllRegister binds.tail cands.tail rest h2 with
      | Outcome.panics => Outcome.panics
      | Outcome.diverges => Outcome.diverges
      | Outcome.value (outs, h3) => Outcome.value (r :: outs, h3)

/-- The `UnRegisterHotKeys` arm of `events_processor`: same send pattern
as `batchRegister`, over `unregister_hotkey`. -/
def batchUnregister : List HotKey → List Nat →
    Outcome (List (Except Error Unit) × List Nat)
  | [], hotkeys => Outcome.value ([Except.ok ()], hotkeys)
  | hk :: rest, hotkeys =>
    match unregister_hotkey hotkeys hk with
    | Outcome.panics => Outcome.panics
    | Outcome.diverges => Outcome.diverges
    | Outcome.value (Except.error e, h2) =>
      match batchUnregister rest h2 with
      | Outcome.panics => Outcome.panics
      | Outcome.diverges => Outcome.diverges
      | Outcome.value (sends, h3) => Outcome.value (Except.error e :: sends, h3)
    | Outcome.value (Except.ok _, h2) => batchUnregister rest h2

/-- The per-element outcomes of the same traversal `batchUnregister`
performs: every element's individual `unregister_hotkey` result in order
(not only the failing ones), threading the same state.  Used to state
what the unregister batch arm's reply discards. -/
def runAllUnregister : List HotKey → List Nat →
    Outcome (List (Except Error Unit) × List Nat)
  | [], hotkeys => Outcome.value ([], hotkeys)
  | hk :: rest, hotkeys =>
    match unregister_hotkey hotkeys hk with
    | Outcome.panics => Outcome.panics
    | Outcome.diverges => Outcome.diverges
    | Outcome.value (r, h2) =>
      match runAllUnregister rest h2 with
      | Outcome.panics => Outcome.panics
      | Outcome.diverges => Outcome.diverges
      | Outcome.value (outs, h3) => Outcome.value (r :: outs, h3)

/-- The idle part of each `events_processor` iteration:
`xdg.activated(); xdg.deactivated();` (the sleep has no observable
effect in this model). -/
def pollEvents (actSub deactSub : Except String SignalStream) :
    Outcome (List GlobalHotKeyEvent) :=
  match Xdgs.activated actSub with
  | Outcome.panics => Outcome.panics
  | Outcome.diverges => Outcome.diverges
  | Outcome.value evsA =>
    match Xdgs.deactivated deactSub with
    | Outcome.panics => Outcome.panics
    | Outcome.diverges => Outcome.diverges
    | Outcome.value evsD => Outcome.value (evsA ++ evsD)

/-- The environment of one `events_processor` loop iteration: the
`try_recv` result (`none` when the queue was empty), the per-element
portal bind outcomes and random candidate streams for the command, and
the two signal-stream subscriptions the two polls will see. -/
structure IterOracle where
  msg : Option ThreadMessage
  binds : List (Except String Unit)
  cands : List (List Nat)
  actSub : Except String SignalStream
  deactSub : Except String SignalStream

/-- The `loop` inside `events_processor`: each iteration drains at most
one command via `try_recv`, processes it (replying on its one-shot
channel; `DropThread` drops the session and returns before the polls),
then polls once for activations and once for deactivations.  Output: the
reply list of each processed command in order, and all republished
events.  Running out of modelled iterations without a `DropThread` is the
loop continuing forever, i.e. divergence. -/
def events_processor_loop : List IterOracle → List Nat →
    Outcome (List (List (Except Error Unit)) × List GlobalHotKeyEvent)
  | [], _ => Outcome.diverges
  | it :: rest, hotkeys =>
    let step : Outcome (Option (List (Except Error Unit)) × List Nat × Bool) :=
      match it.msg with
      | none => Outcome.value (none, hotkeys, false)
      | some ThreadMessage.DropThread => Outcome.value (none, hotkeys, true)
      | some (ThreadMessage.RegisterHotKey hk) =>
        match register_hotkey (it.binds.headD (Except.ok ())) (it.cands.headD [])
            hotkeys hk with
        | Outcome.panics => Outcome.panics
        | Outcome.diverges => Outcome.diverges
        | Outcome.value (r, h2) => Outcome.value (some [r], h2, false)
      | some (ThreadMessage.RegisterHotKeys keys) =>
        match batchRegister it.binds it.cands keys hotkeys with
        | Outcome.panics => Outcome.panics
        | Outcome.diverges => Outcome.diverges
        | Outcome.value (sends, h2) => Outcome.value (some sends, h2, false)
      | some (ThreadMessage.UnRegisterHotKey hk) =>
        match unregister_hotkey hotkeys hk with
        | Outcome.panics => Outcome.panics
        | Outcome.diverges => Outcome.diverges
        | Outcome.value (r, h2) => Outcome.value (some [r], h2, false)
      | some (ThreadMessage.UnRegisterHotKeys keys) =>
        match batchUnregister keys hotkeys with
        | Outcome.panics => Outcome.panics
        | Outcome.diverges => Outcome.diverges
        | Outcome.value (sends, h2) => Outcome.value (some sends, h2, false)
    match step with
    | Outcome.panics => Outcome.panics
    | Outcome.diverges => Outcome.diverges
    | Outcome.value (_, _, true) => Outcome.value ([], [])
    | Outcome.value (reply, h2, false) =>
      match pollEvents it.actSub it.deactSub with
      | Outcome.panics => Outcome.panics
      | Outcome.diverges => Outcome.diverges
      | Outcome.value evs =>
        match events_processor_loop rest h2 with
        | Outcome.panics => Outcome.panics
        | Outcome.diverges => Outcome.diverges
        | Outcome.value (replies, evs2) =>
          Outcome.value
            ((match reply with | some s => [s] | none => []) ++ replies,
              evs ++ evs2)

/-- `events_processor` from `wayland/mod.rs`: `if let Ok(xdg) = Xdgs::new()`
run the command loop starting from an empty active identifier list, `else`
only log and return — no command is ever received and no reply is ever
sent.  `sessionOk` is whether `Xdgs::new()` (the portal session
establishment) succeeded. -/
def events_processor (sessionOk : Bool) (iters : List IterOracle) :
    Outcome (List (List (Except Error Unit)) × List GlobalHotKeyEvent) :=
  if sessionOk then events_processor_loop iters []
  else Outcome.value ([], [])

/-- The caller side of every facade method:
`if let Ok(result) = rx.recv() { result?; } Ok(())`.
`reply` is what `rx.recv()` produced: `none` when it failed (the
dispatcher thread is gone and the one-shot sender was dropped without a
send), `some r` when the dispatcher answered `r`. -/
def facadeCall (reply : Option (Except Error Unit)) : Except Error Unit :=
  match reply with
  | some (Except.error e) => Except.error e
  | some (Except.ok _) => Except.ok ()
  | none => Except.ok ()

/-- The caller's view of a batch reply: `rx.recv()` returns the first
message sent on the bounded(1) channel (later sends are discarded once
the caller has taken one message and dropped the receiver), and the
facade then applies `facadeCall`. -/
def facadeReply (sends : List (Except Error Unit)) : Except Error Unit :=
  facadeCall sends.head?

/-- `wayland::GlobalHotKeyManager`: the facade handle.  `sessionOk`
records whether `Xdgs::new()` succeeds inside the worker thread the
constructor spawned (the `thread_tx` sender itself carries no state worth
modelling). -/
structure GlobalHotKeyManager where
  sessionOk : Bool
deriving DecidableEq, Repr

/-- `wayland::GlobalHotKeyManager::new`: create the channel, spawn
`events_processor` (discarding the `JoinHandle`), and return
`Ok(Self { thread_tx })` — unconditionally, whatever happens to the
session inside the worker thread. -/
def GlobalHotKeyManager.new (sessionOk : Bool) :
    Except Error GlobalHotKeyManager :=
  Except.ok (GlobalHotKeyManager.mk sessionOk)

/-- `GlobalHotKeyManager::register`: send `RegisterHotKey` (ignoring a
failed send) and run the shared receive epilogue on the reply. -/
def GlobalHotKeyManager.register (_self : GlobalHotKeyManager) (_hotkey : HotKey)
    (reply : Option (Except Error Unit)) : Except Error Unit :=
  facadeCall reply

/-- `GlobalHotKeyManager::unregister`: send `UnRegisterHotKey` (ignoring a
failed send) and run the shared receive epilogue on the reply. -/
def GlobalHotKeyManager.unregister (_self : GlobalHotKeyManager) (_hotkey : HotKey)
    (reply : Option (Except Error Unit)) : Except Error Unit :=
  facadeCall reply

/-- `GlobalHotKeyManager::register_all`: send `RegisterHotKeys` (ignoring
a failed send) and run the shared receive epilogue on the reply. -/
def GlobalHotKeyManager.register_all (_self : GlobalHotKeyManager)
    (_hotkeys : List HotKey) (reply : Option (Except Error Unit)) :
    Except Error Unit :=
  facadeCall reply

/-- `GlobalHotKeyManager::unregister_all`: send `UnRegisterHotKeys`
(ignoring a failed send) and run the shared receive epilogue on the
reply. -/
def GlobalHotKeyManager.unregister_all (_self : GlobalHotKeyManager)
    (_hotkeys : List HotKey) (reply : Option (Except Error Unit)) :
    Except Error Unit :=
  facadeCall reply

/-- The channel/thread operations a facade-side function can perform, each
tagged with whether it can block the calling thread.  A send on a
crossbeam unbounded channel enqueues and returns immediately; a blocking
receive and a thread join can block. -/
inductive FacadeOp where
  | sendUnbounded (msg : ThreadMessage)
  | recvBlocking
  | joinThread
deriving DecidableEq, Repr

/-- Whether the operation can block the calling thread. -/
def FacadeOp.canBlock : FacadeOp → Bool
  | FacadeOp.sendUnbounded _ => false
  | FacadeOp.recvBlocking => true
  | FacadeOp.joinThread => true

/-- The body of `impl Drop for GlobalHotKeyManager` as the sequence of
channel/thread operations it performs:
`let _ = self.thread_tx.send(ThreadMessage::DropThread);` and nothing
else — no receive, and no join of the worker thread (whose `JoinHandle`
was already discarded in `new`). -/
def managerDropOps : List FacadeOp :=
  [FacadeOp.sendUnbounded ThreadMessage.DropThread]

/-- Whether a reply-channel message is an error (`Err(_)`). -/
def isErrReply : Except Error Unit → Bool
  | Except.error _ => true
  | Except.ok _ => false

/-- Second definition, following the spec's words only (for comparison
with `modifiers_to_freedesktop_spec`): the canonical modifier order
"SHIFT, then SUPER/META, then ALT, then CONTROL" as a list of the emitted
modifier names. -/
def specCanonicalModifierOrder (m : Modifiers) : List String :=
  (if m.shift then ["SHIFT"] else [])
    ++ (if m.superKey || m.meta then ["LOGO"] else [])
    ++ (if m.alt then ["ALT"] else [])
    ++ (if m.control then ["CTRL"] else [])

/-- C1 (counterexample): with the portal session impossible to establish
(`sessionOk = false`), `wayland::GlobalHotKeyManager::new` still returns
`Ok`, the worker thread exits having served no command and sent no reply,
and a subsequent `register` on the returned manager (whose `recv` then
fails, `reply = none`) returns `Ok(())` — a usable `Manager` was returned,
so construction did not fail. -/
theorem C1_counterexample :
    GlobalHotKeyManager.new false = Except.ok (GlobalHotKeyManager.mk false) ∧
    events_processor false [] = Outcome.value ([], []) ∧
    (GlobalHotKeyManager.mk false).register
        (HotKey.mk (Modifiers.mk false false false false false) Code.KeyA) none
      = Except.ok () :=
  ⟨rfl, rfl, rfl⟩

/-- C1 (amended): for the wayland (portal) backend, `Manager::new` never
fails: it returns `Ok` whether or not the backend session can be
established; a session-establishment failure only makes the worker thread
exit (the failure is logged, not reported), after which every facade call
receives no reply and returns `Ok(())` as a no-op. -/
theorem C1_wayland_new_never_fails :
    (∀ sessionOk : Bool,
      GlobalHotKeyManager.new sessionOk
        = Except.ok (GlobalHotKeyManager.mk sessionOk)) ∧
    (∀ iters : List IterOracle,
      events_processor false iters = Outcome.value ([], [])) ∧
    (∀ (m : GlobalHotKeyManager) (hk : HotKey),
      m.register hk none = Except.ok ()) :=
  ⟨fun _ => rfl, fun _ => rfl, fun _ _ => rfl⟩

/-- C2 (counterexample): for modifiers {CONTROL, SHIFT} and key code
`KeyA`, the trigger translation yields `"SHIFT+CTRL+A"` — not
`"CTRL+SHIFT+A"` as the claim states (SHIFT is emitted before CTRL). -/
theorem C2_counterexample :
    hotkeyTrigger (HotKey.mk (Modifiers.mk true true false false false) Code.KeyA)
      = some "SHIFT+CTRL+A" ∧
    decide (hotkeyTrigger
        (HotKey.mk (Modifiers.mk true true false false false) Code.KeyA)
      = some "CTRL+SHIFT+A") = false :=
  ⟨rfl, by decide⟩

/-- C2 (amended): for the hotkey with modifier set {CONTROL, SHIFT} and
key code `KeyA` the trigger translation produces exactly
`"SHIFT+CTRL+A"`, and for every modifier set the emitted modifiers follow
the canonical order SHIFT, then SUPER/META (LOGO), then ALT, then
CONTROL, joined by the `+` delimiter. -/
theorem C2_trigger_shift_ctrl_a :
    hotkeyTrigger (HotKey.mk (Modifiers.mk true true false false false) Code.KeyA)
      = some "SHIFT+CTRL+A" ∧
    (∀ m : Modifiers,
      modifiers_to_freedesktop_spec m
        = String.intercalate "+" (specCanonicalModifierOrder m)) := by
  refine ⟨rfl, ?_⟩
  rintro ⟨s, c, a, su, me⟩
  cases s <;> cases c <;> cases a <;> cases su <;> cases me <;> rfl

/-- C3 (counterexample): for the two-element batch [unmapped `Fn` key,
mapped `KeyA` with a successful bind], the dispatcher sends the first
element's error and then the final `Ok`; the per-element outcomes are
[`Err`, `Ok`], so the last attempted element's outcome is `Ok(())`, yet
the single reply the blocked caller receives (the first message sent on
the bounded(1) channel) is the first element's error — the reply does not
reflect the last attempted element's outcome. -/
theorem C3_counterexample :
    batchRegister [Except.ok (), Except.ok ()] [[1], [1]]
        [HotKey.mk (Modifiers.mk false false false false false) Code.Fn,
          HotKey.mk (Modifiers.mk false false false false false) Code.KeyA] []
      = Outcome.value
          ([Except.error (Error.FailedToRegister
              "Unable to register accelerator (unknown scancode for this key: Fn)."),
            Except.ok ()], [1]) ∧
    runAllRegister [Except.ok (), Except.ok ()] [[1], [1]]
        [HotKey.mk (Modifiers.mk false false false false false) Code.Fn,
          HotKey.mk (Modifiers.mk false false false false false) Code.KeyA] []
      = Outcome.value
          ([Except.error (Error.FailedToRegister
              "Unable to register accelerator (unknown scancode for this key: Fn)."),
            Except.ok ()], [1]) ∧
    facadeReply
        [Except.error (Error.FailedToRegister
            "Unable to register accelerator (unknown scancode for this key: Fn)."),
          Except.ok ()]
      = Except.error (Error.FailedToRegister
          "Unable to register accelerator (unknown scancode for this key: Fn).") ∧
    isErrReply (facadeReply
        [Except.error (Error.FailedToRegister
            "Unable to register accelerator (unknown scancode for this key: Fn)."),
          Except.ok ()]) = true :=
  ⟨rfl, rfl, rfl, rfl⟩

/-- C3 (amended): whenever every element of a `register_all` batch (first
conjunct) or of an `unregister_all` batch (second conjunct) is processed
to a normal return, the dispatcher attempts every element in sequence
with no fail-fast (as many per-element outcomes as hotkeys), the messages
sent on the reply channel are exactly the failing elements' errors in
order followed by one final `Ok(())`, and the single reply the blocked
caller receives is the FIRST failing element's error if any element
failed, else `Ok(())` — later elements' outcomes, not earlier ones, are
silently discarded. -/
theorem C3_batch_reply_first_error :
    (∀ (binds : List (Except String Unit)) (cands : List (List Nat))
        (keys : List HotKey) (hotkeys : List Nat)
        (outs : List (Except Error Unit)) (final : List Nat),
      runAllRegister binds cands keys hotkeys = Outcome.value (outs, final) →
      outs.length = keys.length ∧
      batchRegister binds cands keys hotkeys
        = Outcome.value (outs.filter isErrReply ++ [Except.ok ()], final) ∧
      facadeReply (outs.filter isErrReply ++ [Except.ok ()])
        = (outs.find? isErrReply).getD (Except.ok ())) ∧
    (∀ (keys : List HotKey) (hotkeys : List Nat)
        (outs : List (Except Error Unit)) (final : List Nat),
      runAllUnregister keys hotkeys = Outcome.value (outs, final) →
      outs.length = keys.length ∧
      batchUnregister keys hotkeys
        = Outcome.value (outs.filter isErrReply ++ [Except.ok ()], final) ∧
      facadeReply (outs.filter isErrReply ++ [Except.ok ()])
        = (outs.find? isErrReply).getD (Except.ok ())) := by
  constructor
  · intro binds cands keys hotkeys outs final h
    induction keys generalizing binds cands hotkeys outs final with
    | nil =>
      simp only [runAllRegister, Outcome.value.injEq, Prod.mk.injEq] at h
      obtain ⟨h1, h2⟩ := h
      subst h1; subst h2
      exact ⟨rfl, rfl, rfl⟩
    | cons hk rest ih =>
      simp only [runAllRegister] at h
      cases hreg : register_hotkey (binds.headD (Except.ok ()))
          (cands.headD []) hotkeys hk with
      | panics => rw [hreg] at h; simp at h
      | diverges => rw [hreg] at h; simp at h
      | value p =>
        obtain ⟨r, h2⟩ := p
        rw [hreg] at h
        dsimp only at h
        cases hrec : runAllRegister binds.tail cands.tail rest h2 with
        | panics => rw [hrec] at h; simp at h
        | diverges => rw [hrec] at h; simp at h
        | value q =>
          obtain ⟨outs2, f2⟩ := q
          rw [hrec] at h
          dsimp only at h
          simp only [Outcome.value.injEq, Prod.mk.injEq] at h
          obtain ⟨houts, hfin⟩ := h
          subst houts; subst hfin
          obtain ⟨ihlen, ihbatch, ihreply⟩ := ih binds.tail cands.tail h2 outs2 f2 hrec
          refine ⟨by simp [ihlen], ?_, ?_⟩
          · cases r with
            | error e =>
              simp only [batchRegister, hreg, ihbatch, List.filter_cons, isErrReply,
                if_pos, List.cons_append]
            | ok u =>
              simp only [batchRegister, hreg, ihbatch, List.filter_cons, isErrReply,
                if_neg, Bool.false_eq_true, if_false]
          · cases r with
            | error e =>
              simp [isErrReply, facadeReply, facadeCall, List.find?_cons, List.filter_cons]
            | ok u =>
              simpa [isErrReply, List.find?_cons, List.filter_cons] using ihreply
  · intro keys hotkeys outs final h
    induction keys generalizing hotkeys outs final with
    | nil =>
      simp only [runAllUnregister, Outcome.value.injEq, Prod.mk.injEq] at h
      obtain ⟨h1, h2⟩ := h
      subst h1; subst h2
      exact ⟨rfl, rfl, rfl⟩
    | cons hk rest ih =>
      simp only [runAllUnregister] at h
      cases hreg : unregister_hotkey hotkeys hk with
      | panics => rw [hreg] at h; simp at h
      | diverges => rw [hreg] at h; simp at h
      | value p =>
        obtain ⟨r, h2⟩ := p
        rw [hreg] at h
        dsimp only at h
        cases hrec : runAllUnregister rest h2 with
        | panics => rw [hrec] at h; simp at h
        | diverges => rw [hrec] at h; simp at h
        | value q =>
          obtain ⟨outs2, f2⟩ := q
          rw [hrec] at h
          dsimp only at h
          simp only [Outcome.value.injEq, Prod.mk.injEq] at h
          obtain ⟨houts, hfin⟩ := h
          subst houts; subst hfin
          obtain ⟨ihlen, ihbatch, ihreply⟩ := ih h2 outs2 f2 hrec
          refine ⟨by simp [ihlen], ?_, ?_⟩
          · cases r with
            | error e =>
              simp only [batchUnregister, hreg, ihbatch, List.filter_cons, isErrReply,
                if_pos, List.cons_append]
            | ok u =>
              simp only [batchUnregister, hreg, ihbatch, List.filter_cons, isErrReply,
                if_neg, Bool.false_eq_true, if_false]
          · cases r with
            | error e =>
              simp [isErrReply, facadeReply, facadeCall, List.find?_cons, List.filter_cons]
            | ok u =>
              simpa [isErrReply, List.find?_cons, List.filter_cons] using ihreply

/-- C3 (witness): the amended theorem applied to concrete batches of both
arms — the register batch of the counterexample, and an unregister batch
of two unmapped keys (the only unregister elements that return normally),
whose reply is the first element's error while the last attempted
element's outcome is a different error. -/
theorem C3_witness :
    (([Except.error (Error.FailedToRegister
        "Unable to register accelerator (unknown scancode for this key: Fn)."),
       Except.ok ()] : List (Except Error Unit)).length
        = ([HotKey.mk (Modifiers.mk false false false false false) Code.Fn,
            HotKey.mk (Modifiers.mk false false false false false) Code.KeyA]
            : List HotKey).length ∧
      batchRegister [Except.ok (), Except.ok ()] [[1], [1]]
          [HotKey.mk (Modifiers.mk false false false false false) Code.Fn,
            HotKey.mk (Modifiers.mk false false false false false) Code.KeyA] []
        = Outcome.value
            (([Except.error (Error.FailedToRegister
                "Unable to register accelerator (unknown scancode for this key: Fn)."),
               Except.ok ()].filter isErrReply) ++ [Except.ok ()], [1]) ∧
      facadeReply
          (([Except.error (Error.FailedToRegister
              "Unable to register accelerator (unknown scancode for this key: Fn)."),
             Except.ok ()].filter isErrReply) ++ [Except.ok ()])
        = ([Except.error (Error.FailedToRegister
              "Unable to register accelerator (unknown scancode for this key: Fn)."),
            Except.ok ()].find? isErrReply).getD (Except.ok ())) ∧
    (([Except.error (Error.FailedToUnRegister
          (HotKey.mk (Modifiers.mk false false false false false) Code.Fn)),
       Except.error (Error.FailedToUnRegister
          (HotKey.mk (Modifiers.mk false false false false false) Code.F13))]
        : List (Except Error Unit)).length
        = ([HotKey.mk (Modifiers.mk false false false false false) Code.Fn,
            HotKey.mk (Modifiers.mk false false false false false) Code.F13]
            : List HotKey).length ∧
      batchUnregister
          [HotKey.mk (Modifiers.mk false false false false false) Code.Fn,
            HotKey.mk (Modifiers.mk false false false false false) Code.F13] []
        = Outcome.value
            (([Except.error (Error.FailedToUnRegister
                (HotKey.mk (Modifiers.mk false false false false false) Code.Fn)),
               Except.error (Error.FailedToUnRegister
                (HotKey.mk (Modifiers.mk false false false false false) Code.F13))].filter
                  isErrReply) ++ [Except.ok ()], []) ∧
      facadeReply
          (([Except.error (Error.FailedToUnRegister
              (HotKey.mk (Modifiers.mk false false false false false) Code.Fn)),
             Except.error (Error.FailedToUnRegister
              (HotKey.mk (Modifiers.mk false false false false false) Code.F13))].filter
                isErrReply) ++ [Except.ok ()])
        = ([Except.error (Error.FailedToUnRegister
              (HotKey.mk (Modifiers.mk false false false false false) Code.Fn)),
            Except.error (Error.FailedToUnRegister
              (HotKey.mk (Modifiers.mk false false false false false) Code.F13))].find?
                isErrReply).getD (Except.ok ())) :=
  ⟨C3_batch_reply_first_error.1 [Except.ok (), Except.ok ()] [[1], [1]]
      [HotKey.mk (Modifiers.mk false false false false false) Code.Fn,
        HotKey.mk (Modifiers.mk false false false false false) Code.KeyA] []
      [Except.error (Error.FailedToRegister
          "Unable to register accelerator (unknown scancode for this key: Fn)."),
        Except.ok ()] [1] rfl,
    C3_batch_reply_first_error.2
      [HotKey.mk (Modifiers.mk false false false false false) Code.Fn,
        HotKey.mk (Modifiers.mk false false false false false) Code.F13] []
      [Except.error (Error.FailedToUnRegister
          (HotKey.mk (Modifiers.mk false false false false false) Code.Fn)),
        Except.error (Error.FailedToUnRegister
          (HotKey.mk (Modifiers.mk false false false false false) Code.F13))] [] rfl⟩

/-- C4: when the dispatcher worker thread has already terminated, the
facade's send is ignored and `rx.recv()` fails (the one-shot sender was
dropped without a send, `reply = none`), so `register`, `unregister`,
`register_all` and `unregister_all` all return `Ok(())` as a non-fatal
no-op; being total functions of the reply, they cannot panic. -/
theorem C4_dispatcher_gone_noop :
    ∀ (m : GlobalHotKeyManager) (hk : HotKey) (hks : List HotKey),
      m.register hk none = Except.ok () ∧
      m.unregister hk none = Except.ok () ∧
      m.register_all hks none = Except.ok () ∧
      m.unregister_all hks none = Except.ok () :=
  fun _ _ _ => ⟨rfl, rfl, rfl, rfl⟩

/-- C5: for every hotkey whose key code has a freedesktop mapping, the
portal-backend unregister path reaches the `todo!()` stub and panics —
it never returns normally, and `Xdgs::unregister`'s `FailedToUnRegister`
branch after the `block_on` (like every other continuation) is
unreachable: `Xdgs::unregister` panics on all inputs. -/
theorem C5_unregister_is_stub (hotkeys : List Nat) (hk : HotKey) (s : String)
    (h : keycode_to_freedesktop_spec hk.key = some s) :
    unregister_hotkey hotkeys hk = Outcome.panics ∧
    (∀ (hotkey_str : String) (hk2 : HotKey) (hks : List Nat),
      Xdgs.unregister hotkey_str hk2 hks = Outcome.panics) := by
  refine ⟨?_, fun _ _ _ => rfl⟩
  simp only [unregister_hotkey, h]
  rfl

/-- C5 (witness): unregistering CTRL-less `KeyA` (a mapped key code) from
an empty active set reaches the stub and panics. -/
theorem C5_witness :
    unregister_hotkey []
        (HotKey.mk (Modifiers.mk false false false false false) Code.KeyA)
      = Outcome.panics :=
  (C5_unregister_is_stub []
    (HotKey.mk (Modifiers.mk false false false false false) Code.KeyA) "A" rfl).1

/-- C6 (counterexample): the body of `Drop for GlobalHotKeyManager`
performs exactly one operation — a send of `DropThread` on the unbounded
command channel — and no operation it performs can block (there is no
receive and no join; the worker's `JoinHandle` was discarded in `new`),
so dropping the Manager cannot block the destroying caller until the
worker thread has released the backend session. -/
theorem C6_counterexample :
    managerDropOps.any FacadeOp.canBlock = false ∧
    managerDropOps = [FacadeOp.sendUnbounded ThreadMessage.DropThread] :=
  ⟨rfl, rfl⟩

/-- C6 (amended): dropping the Manager sends the `DropThread` (Shutdown)
command and returns immediately, without blocking on the worker thread;
the worker, when it eventually processes `DropThread`, drops the backend
session and exits its loop at once (sending no further replies or
events). -/
theorem C6_drop_sends_and_returns :
    managerDropOps = [FacadeOp.sendUnbounded ThreadMessage.DropThread] ∧
    managerDropOps.all (fun op => !op.canBlock) = true ∧
    (∀ (binds : List (Except String Unit)) (cands : List (List Nat))
        (actSub deactSub : Except String SignalStream)
        (rest : List IterOracle) (hotkeys : List Nat),
      events_processor_loop
          (IterOracle.mk (some ThreadMessage.DropThread) binds cands actSub deactSub
            :: rest) hotkeys
        = Outcome.value ([], [])) :=
  ⟨rfl, rfl, fun _ _ _ _ _ _ => rfl⟩

/-- C7 (counterexample): a poll against a live signal stream with no
pending event does not return immediately: `next().await` never
completes, so under `block_on` the activation and deactivation polls
diverge (the dispatcher thread is stuck until an event arrives). -/
theorem C7_counterexample :
    AsyncXdgs.activated (Except.ok (SignalStream.mk [] true)) = Outcome.diverges ∧
    AsyncXdgs.deactivated (Except.ok (SignalStream.mk [] true)) = Outcome.diverges ∧
    Xdgs.activated (Except.ok (SignalStream.mk [] true)) = Outcome.diverges :=
  ⟨rfl, rfl, rfl⟩

/-- C7 (amended): each activation/deactivation poll republishes at most
one event per call (it `break`s after the first), and it takes the first
pending event when one is queued; but when no event is pending on a live
stream the poll does not return — it blocks inside `block_on` until an
event arrives, so the dispatcher loop is not kept responsive while
idle. -/
theorem C7_poll_single_event_or_blocks :
    (∀ (sub : Except String SignalStream) (r : Except String Unit)
        (evs : List GlobalHotKeyEvent),
      AsyncXdgs.activated sub = Outcome.value (r, evs) → evs.length ≤ 1) ∧
    (∀ (sub : Except String SignalStream) (r : Except String Unit)
        (evs : List GlobalHotKeyEvent),
      AsyncXdgs.deactivated sub = Outcome.value (r, evs) → evs.length ≤ 1) ∧
    (∀ s : SignalStream, s.pending = [] → s.live = true →
      AsyncXdgs.activated (Except.ok s) = Outcome.diverges ∧
      AsyncXdgs.deactivated (Except.ok s) = Outcome.diverges) ∧
    (∀ (s : SignalStream) (e : Nat) (pendRest : List Nat),
      s.pending = e :: pendRest →
      AsyncXdgs.activated (Except.ok s)
        = Outcome.value (Except.ok (),
            [GlobalHotKeyEvent.mk e HotKeyState.Pressed])) := by
  refine ⟨?_, ?_, ?_, ?_⟩
  · rintro (err | ⟨pending, live⟩) r evs h
    · simp only [AsyncXdgs.activated, Outcome.value.injEq, Prod.mk.injEq] at h
      obtain ⟨-, rfl⟩ := h
      simp
    · cases pending with
      | nil =>
        cases live with
        | false =>
          simp only [AsyncXdgs.activated, streamNext, Bool.false_eq_true,
            if_false, Outcome.value.injEq, Prod.mk.injEq] at h
          obtain ⟨-, rfl⟩ := h
          simp
        | true => exact absurd h (by simp [AsyncXdgs.activated, streamNext])
      | cons e pendRest =>
        simp only [AsyncXdgs.activated, streamNext, Outcome.value.injEq,
          Prod.mk.injEq] at h
        obtain ⟨-, rfl⟩ := h
        simp
  · rintro (err | ⟨pending, live⟩) r evs h
    · simp only [AsyncXdgs.deactivated, Outcome.value.injEq, Prod.mk.injEq] at h
      obtain ⟨-, rfl⟩ := h
      simp
    · cases pending with
      | nil =>
        cases live with
        | false =>
          simp only [AsyncXdgs.deactivated, streamNext, Bool.false_eq_true,
            if_false, Outcome.value.injEq, Prod.mk.injEq] at h
          obtain ⟨-, rfl⟩ := h
          simp
        | true => exact absurd h (by simp [AsyncXdgs.deactivated, streamNext])
      | cons e pendRest =>
        simp only [AsyncXdgs.deactivated, streamNext, Outcome.value.injEq,
          Prod.mk.injEq] at h
        obtain ⟨-, rfl⟩ := h
        simp
  · rintro ⟨pending, live⟩ hp hl
    cases hp; cases hl
    exact ⟨rfl, rfl⟩
  · rintro ⟨pending, live⟩ e pendRest hp
    cases hp
    rfl

/-- C7 (witness): the amended theorem at concrete streams — one pending
event is republished as a single `Pressed` event, and a live empty stream
makes both polls diverge. -/
theorem C7_witness :
    ([GlobalHotKeyEvent.mk 5 HotKeyState.Pressed].length ≤ 1) ∧
    (AsyncXdgs.activated (Except.ok (SignalStream.mk [] true)) = Outcome.diverges ∧
      AsyncXdgs.deactivated (Except.ok (SignalStream.mk [] true)) = Outcome.diverges) ∧
    AsyncXdgs.activated (Except.ok (SignalStream.mk [5] true))
      = Outcome.value (Except.ok (), [GlobalHotKeyEvent.mk 5 HotKeyState.Pressed]) :=
  ⟨C7_poll_single_event_or_blocks.1 (Except.ok (SignalStream.mk [5] true))
      (Except.ok ()) [GlobalHotKeyEvent.mk 5 HotKeyState.Pressed] rfl,
    C7_poll_single_event_or_blocks.2.2.1 (SignalStream.mk [] true) rfl rfl,
    C7_poll_single_event_or_blocks.2.2.2 (SignalStream.mk [5] true) 5 [] rfl⟩

/-- C8: registering a hotkey whose key code has no freedesktop mapping
returns the `FailedToRegister` "unknown scancode" error and leaves the
active identifier list exactly as it was. -/
theorem C8_unknown_scancode_error (bindResult : Except String Unit)
    (cands : List Nat) (hotkeys : List Nat) (hk : HotKey)
    (h : keycode_to_freedesktop_spec hk.key = none) :
    register_hotkey bindResult cands hotkeys hk
      = Outcome.value
          (Except.error (Error.FailedToRegister
            ("Unable to register accelerator (unknown scancode for this key: "
              ++ Code.displayString hk.key ++ ").")), hotkeys) := by
  simp only [register_hotkey, h]

/-- C8 (witness): registering the unmapped `Fn` key against the active
set `[3]` fails with the unknown-scancode error and leaves `[3]`
unchanged. -/
theorem C8_witness :
    register_hotkey (Except.ok ()) [1] [3]
        (HotKey.mk (Modifiers.mk false false false false false) Code.Fn)
      = Outcome.value
          (Except.error (Error.FailedToRegister
            ("Unable to register accelerator (unknown scancode for this key: "
              ++ Code.displayString Code.Fn ++ ").")), [3]) :=
  C8_unknown_scancode_error (Except.ok ()) [1] [3]
    (HotKey.mk (Modifiers.mk false false false false false) Code.Fn) rfl

/-- Helper for C9: the allocation loop only ever returns a candidate that
is absent from the active identifier list at the moment of the test. -/
theorem allocate_id_fresh (cands hotkeys : List Nat) (id : Nat)
    (h : allocate_id cands hotkeys = some id) : hotkeys.contains id = false := by
  induction cands with
  | nil => exact absurd h (by simp [allocate_id])
  | cons c rest ih =>
    simp only [allocate_id] at h
    by_cases hc : (hotkeys.isEmpty || !(hotkeys.contains c)) = true
    · rw [if_pos hc] at h
      obtain rfl := Option.some.inj h
      simp only [Bool.or_eq_true] at hc
      rcases hc with he | hnc
      · cases hotkeys with
        | nil => rfl
        | cons x xs => exact absurd he (by simp [List.isEmpty])
      · simpa using hnc
    · rw [if_neg hc] at h
      exact ih h

/-- C9: whenever `AsyncXdgs::register` succeeds having drawn `id` from the
allocation loop, that `id` was absent from the active identifier list at
the moment it was chosen, and the new list is exactly the old list with
`id` pushed at that same (serial, dispatcher-thread) execution point. -/
theorem C9_allocated_id_fresh (bindResult : Except String Unit)
    (cands : List Nat) (trigger : String) (hotkeys newSet : List Nat) (id : Nat)
    (h : AsyncXdgs.register bindResult cands trigger hotkeys
      = Outcome.value (Except.ok (), newSet))
    (hid : allocate_id cands hotkeys = some id) :
    hotkeys.contains id = false ∧ newSet = hotkeys ++ [id] := by
  refine ⟨allocate_id_fresh cands hotkeys id hid, ?_⟩
  simp only [AsyncXdgs.register, hid] at h
  cases bindResult with
  | error e => exact absurd h (by simp)
  | ok u =>
    simp only [Outcome.value.injEq, Prod.mk.injEq] at h
    exact h.2.symm

/-- C9 (witness): with the constrained candidate stream `[5, 5, 7]`
against the active set `[5]`, the allocator retries past the colliding
draws of `5` and returns the fresh `7`, which the successful register
pushes. -/
theorem C9_witness :
    ([5] : List Nat).contains 7 = false ∧ ([5, 7] : List Nat) = [5] ++ [7] :=
  C9_allocated_id_fresh (Except.ok ()) [5, 5, 7] "SHIFT+CTRL+A" [5] [5, 7] 7
    rfl rfl

/-- C10: the key-code translation is not injective: the distinct key codes
`NumLock` and `F1` both map to the trigger symbol `"F1"`, so for every
modifier set the two hotkeys produce the identical trigger string, and
`register_hotkey` treats them identically. -/
theorem C10_numlock_f1_collision :
    decide (Code.NumLock = Code.F1) = false ∧
    keycode_to_freedesktop_spec Code.NumLock = some "F1" ∧
    keycode_to_freedesktop_spec Code.F1 = some "F1" ∧
    (∀ m : Modifiers,
      hotkeyTrigger (HotKey.mk m Code.NumLock)
        = hotkeyTrigger (HotKey.mk m Code.F1)) ∧
    (∀ (bindResult : Except String Unit) (cands : List Nat)
        (hotkeys : List Nat) (m : Modifiers),
      register_hotkey bindResult cands hotkeys (HotKey.mk m Code.NumLock)
        = register_hotkey bindResult cands hotkeys (HotKey.mk m Code.F1)) :=
  ⟨by decide, rfl, rfl, fun _ => rfl, fun _ _ _ _ => rfl⟩

end GlobalHotkey
